import Mathlib

/-!
Shallow embedding of the way-cooler client protocol layer.

The definitions below are translated from the Rust sources:
* `src/client/src/area.rs` — geometry types,
* `src/client/src/wayland_obj/layer_shell.rs` — the layer-surface
  configure/attach/commit state machine,
* `src/client/src/wayland_obj/wl_shm.rs` — shared-memory buffer creation
  and `Buffer::write`,
* `src/client/src/wayland_obj/wl_compositor.rs`, `wl_seat.rs`,
  `output.rs` — global binding managers and output event accumulation,
* `src/client/src/objects/drawable.rs` — `set_geometry` / `refresh`,
* `src/client/src/objects/drawin.rs` — `DrawinState::update_geometry`.

Wire-protocol proxies are modelled by natural-number handles; a Rust
`panic!` / `unimplemented!` / failed `expect` is modelled as `Option.none`
or as an explicit error outcome value.  Machine integers are modelled by
`Nat` (unsigned bit patterns, reduced mod 2^w where the code can wrap)
and `Int` (signed values obtained by reinterpreting a bit pattern).
-/

namespace WayCooler

/-- Geometry origin, `area.rs`: `Origin { x: i32, y: i32 }`. -/
structure Origin where
  x : Int
  y : Int
deriving DecidableEq, Repr

/-- Geometry size, `area.rs`: `Size { width: u32, height: u32 }`. -/
structure Size where
  width : Nat
  height : Nat
deriving DecidableEq, Repr

/-- Geometry area, `area.rs`: `Area { origin, size }`. -/
structure Area where
  origin : Origin
  size : Size
deriving DecidableEq, Repr

/-! ## Machine-integer helpers -/

/-- Reduction of a bit pattern to 32 bits (`u32` / `i32` wrapping). -/
def wrap32 (n : Nat) : Nat := n % 4294967296

/-- Reduction of a bit pattern to 64 bits (`u64` wrapping). -/
def wrap64 (n : Nat) : Nat := n % 18446744073709551616

/-- Signed value denoted by a 32-bit pattern (the `as i32` view). -/
def i32ofBits (bits : Nat) : Int :=
  if wrap32 bits < 2147483648 then (wrap32 bits : Int)
  else (wrap32 bits : Int) - 4294967296

/-- Unsigned 32-bit value obtained from an `i32` (the `as u32` cast). -/
def u32ofI32 (n : Int) : Nat := (n % 4294967296).toNat

/-! ## Layer-surface state machine (`layer_shell.rs`)

`LayerSurfaceState` mirrors the Rust struct: the pending buffer (a
`WlBuffer` handle together with its attach origin) and the configuration
serial, `None` while unconfigured.  Requests that the code sends on the
wire are recorded as `WireReq` values, in emission order. -/

/-- Requests emitted on the wire by the layer-surface code. -/
inductive WireReq where
  /-- Emission of `wl_surface.attach(Some(&buffer), x, y)`. -/
  | attach (buffer : Nat) (x y : Int)
  /-- Emission of `wl_surface.commit()`. -/
  | commit
  /-- Emission of `layer_surface.ack_configure(serial)`. -/
  | ackConfigure (serial : Nat)
  /-- Emission of `layer_surface.set_size(width, height)`. -/
  | setSize (width height : Nat)
deriving DecidableEq, Repr

/-- Test for an attach request. -/
def WireReq.isAttach : WireReq → Bool
  | .attach _ _ _ => true
  | _ => false

/-- State attached to a `WlrLayerSurface` proxy, `layer_shell.rs` lines
119-124: pending buffer with origin, and the last configure serial
(`None` means unconfigured). -/
structure LayerSurfaceState where
  buffer : Option (Nat × Origin)
  configurationSerial : Option Nat
deriving DecidableEq, Repr

/-- Initial layer-surface state, `LayerSurfaceState::new`. -/
def LayerSurfaceState.initial : LayerSurfaceState :=
  { buffer := none, configurationSerial := none }

/-- Translation of `LayerSurfaceState::attach_buffer` (lines 134-142):
takes the pending buffer; with no buffer present the code panics, which
is modelled by `none`; otherwise the attach request goes on the wire. -/
def attachBuffer (st : LayerSurfaceState) :
    Option (LayerSurfaceState × List WireReq) :=
  match st.buffer with
  | none => none
  | some (buffer, o) =>
      some ({ st with buffer := none }, [WireReq.attach buffer o.x o.y])

/-- Translation of `LayerSurface::set_buffer` (lines 85-97): the pending
buffer is replaced first (a previous uncommitted buffer is dropped with a
warning), then it is attached immediately when a configure serial exists,
and merely kept pending otherwise. -/
def setBuffer (st : LayerSurfaceState) (buffer : Nat) (origin : Origin) :
    Option (LayerSurfaceState × List WireReq) :=
  let st1 := { st with buffer := some (buffer, origin) }
  if st1.configurationSerial.isSome then attachBuffer st1
  else some (st1, [])

/-- Translation of `LayerSurface::set_size` (lines 99-101): forwards the
request to the double-buffered layer surface, touching no local state. -/
def setSizeReq (st : LayerSurfaceState) (width height : Nat) :
    Option (LayerSurfaceState × List WireReq) :=
  some (st, [WireReq.setSize width height])

/-- Translation of `LayerSurface::commit` (lines 103-106). -/
def commitReq (st : LayerSurfaceState) :
    Option (LayerSurfaceState × List WireReq) :=
  some (st, [WireReq.commit])

/-- Translation of `LayerSurfaceEventHandler::configure` (lines 147-158):
the serial is acknowledged first, the stored serial is updated, and a
pending buffer — when present — is attached and committed. -/
def configureEv (st : LayerSurfaceState) (serial width height : Nat) :
    Option (LayerSurfaceState × List WireReq) :=
  let _ := (width, height)
  let pre : List WireReq := [WireReq.ackConfigure serial]
  let st1 := { st with configurationSerial := some serial }
  if st1.buffer.isSome then
    (attachBuffer st1).map fun p => (p.1, pre ++ p.2 ++ [WireReq.commit])
  else
    some (st1, pre)

/-- Events driving a layer surface: the public requests plus the
server-sent configure event. -/
inductive LSEvent where
  | setBuffer (buffer : Nat) (origin : Origin)
  | setSize (width height : Nat)
  | commit
  | configure (serial width height : Nat)
deriving DecidableEq, Repr

/-- Test for a configure event. -/
def LSEvent.isConfigure : LSEvent → Bool
  | .configure _ _ _ => true
  | _ => false

/-- One step of the layer-surface machine. -/
def lsStep (st : LayerSurfaceState) : LSEvent →
    Option (LayerSurfaceState × List WireReq)
  | .setBuffer b o => setBuffer st b o
  | .setSize w h => setSizeReq st w h
  | .commit => commitReq st
  | .configure serial w h => configureEv st serial w h

/-- Run of a sequence of events, accumulating the wire trace. -/
def lsRun (st : LayerSurfaceState) :
    List LSEvent → Option (LayerSurfaceState × List WireReq)
  | [] => some (st, [])
  | e :: es => do
      let p ← lsStep st e
      let q ← lsRun p.1 es
      pure (q.1, p.2 ++ q.2)

/-- Payload of the last `setBuffer` event of a sequence, if any. -/
def lastSetBuffer : List LSEvent → Option (Nat × Origin)
  | [] => none
  | e :: es =>
      match lastSetBuffer es with
      | some p => some p
      | none =>
          match e with
          | .setBuffer b o => some (b, o)
          | _ => none

/-- Test that a sequence contains no configure event. -/
def noConfigure (es : List LSEvent) : Bool :=
  es.all fun e => !e.isConfigure

/-! ## Global binding managers

Each `new_global` implementation follows the same Rust pattern

```
let res = new_proxy.implement_dummy();
if self.field.replace(res.clone()).is_some() { panic!(...) }
res
```

`Option::replace` stores the new handle and returns the previous one, so
the stored handle is overwritten *before* the duplicate check fires.  A
manager's stored handle is the `Option Nat` state; the panic on a
duplicate is modelled by the `protocolViolation` outcome. -/

/-- Outcome of binding a global. -/
inductive BindOutcome where
  /-- Binding succeeded, returning the new handle. -/
  | bound (handle : Nat)
  /-- Duplicate singleton: the code panics, a protocol violation. -/
  | protocolViolation
deriving DecidableEq, Repr

/-- Translation of `LayerShellManager::new_global`
(`layer_shell.rs` lines 60-72). -/
def layerShellNewGlobal (shell : Option Nat) (newShell : Nat) :
    Option Nat × BindOutcome :=
  let res := newShell
  let prev := shell
  let shell1 := some res
  if prev.isSome then (shell1, BindOutcome.protocolViolation)
  else (shell1, BindOutcome.bound res)

/-- Translation of `WlShmManager::new_global` (`wl_shm.rs` lines 81-90). -/
def wlShmNewGlobal (shm : Option Nat) (newShm : Nat) :
    Option Nat × BindOutcome :=
  let res := newShm
  let prev := shm
  let shm1 := some res
  if prev.isSome then (shm1, BindOutcome.protocolViolation)
  else (shm1, BindOutcome.bound res)

/-- Translation of `WlCompositorManager::new_global`
(`wl_compositor.rs` lines 29-43). -/
def wlCompositorNewGlobal (compositor : Option Nat) (newCompositor : Nat) :
    Option Nat × BindOutcome :=
  let res := newCompositor
  let prev := compositor
  let compositor1 := some res
  if prev.isSome then (compositor1, BindOutcome.protocolViolation)
  else (compositor1, BindOutcome.bound res)

/-- Translation of `WlSeatManager::new_global` (`wl_seat.rs` lines 34-43):
identical replace-then-check pattern, panicking on the second seat. -/
def wlSeatNewGlobal (seat : Option Nat) (newSeat : Nat) :
    Option Nat × BindOutcome :=
  let res := newSeat
  let prev := seat
  let seat1 := some res
  if prev.isSome then (seat1, BindOutcome.protocolViolation)
  else (seat1, BindOutcome.bound res)

/-- The cached per-output state, `output.rs` lines 46-51. -/
structure OutputState where
  name : String
  resolution : Nat × Nat
deriving DecidableEq, Repr

/-- Default output state (`OutputState::default`). -/
def OutputState.initial : OutputState := { name := "", resolution := (0, 0) }

/-- Translation of `WlOutputManager::new_global` (`output.rs` lines
63-72): every advertised output is implemented with a fresh default
state and accepted; there is no cap and no duplicate check.  The
manager-side model keeps the list of accepted outputs with their
states. -/
def wlOutputNewGlobal (accepted : List (Nat × OutputState)) (newOutput : Nat) :
    List (Nat × OutputState) :=
  accepted ++ [(newOutput, OutputState.initial)]

/-! ## Output event handlers (`output.rs` lines 74-108) -/

/-- Test of the `current` bit of a `wl_output::Mode` flag word
(bit 0x1 of the protocol bitfield). -/
def modeFlagsCurrent (flags : Nat) : Bool := flags % 2 = 1

/-- Translation of `WlOutputEventHandler::geometry` (lines 76-89): only
the name is updated, as `format!("{} ({})", make, model)`. -/
def outputGeometryEv (st : OutputState) (make model : String) : OutputState :=
  { st with name := make ++ " (" ++ model ++ ")" }

/-- Translation of `WlOutputEventHandler::mode` (lines 91-94): the
resolution is set to `(width as u32, height as u32)`; the `flags`
argument is not inspected. -/
def outputModeEv (st : OutputState) (flags : Nat) (width height refresh : Int) :
    OutputState :=
  let _ := (flags, refresh)
  { st with resolution := (u32ofI32 width, u32ofI32 height) }

/-! ## Shared-memory buffer creation (`wl_shm.rs`)

`create_buffer` computes the backing-file length in `u64` arithmetic and
the pool length, buffer width/height and stride in `i32` arithmetic.
The record below captures exactly the numeric arguments handed to
`set_len`, `create_pool` and `create_buffer`. -/

/-- Arguments of the requests issued by `WlShmManager::create_buffer`
(`wl_shm.rs` lines 49-78). -/
structure ShmBufferReq where
  /-- Argument of `temp_file.set_len`, a `u64`. -/
  fileLen : Nat
  /-- Second argument of `shm.create_pool`, an `i32`. -/
  poolLen : Int
  /-- Offset argument of `pool.create_buffer`, an `i32`. -/
  offset : Int
  /-- Width argument of `pool.create_buffer`, an `i32`. -/
  bufWidth : Int
  /-- Height argument of `pool.create_buffer`, an `i32`. -/
  bufHeight : Int
  /-- Stride argument of `pool.create_buffer`, an `i32`. -/
  stride : Int
  /-- Whether the format argument is `Format::Argb8888`. -/
  argb8888 : Bool
deriving DecidableEq, Repr

/-- Translation of `WlShmManager::create_buffer` (lines 49-78).  The
inputs are the `u32` fields of `Size`.  `set_len` receives
`width as u64 * height as u64 * 4`; `create_pool` receives
`width * height * 4` computed on the `i32` values `width as i32`,
`height as i32`; `create_buffer` receives offset `0`, the two `i32`
dimensions, stride `width * 4` and `Format::Argb8888`. -/
def createBuffer (width height : Nat) : ShmBufferReq :=
  { fileLen := wrap64 (wrap64 (width * height) * 4)
    poolLen := i32ofBits (wrap32 (wrap32 (width * height) * 4))
    offset := 0
    bufWidth := i32ofBits width
    bufHeight := i32ofBits height
    stride := i32ofBits (wrap32 (width * 4))
    argb8888 := true }

/-! ## `Buffer::write` (`wl_shm.rs` lines 21-28)

The backing store is a `File`; `std::io::Write::write` writes at the
file's current cursor and advances it — the code performs no seek.  The
file is modelled as its byte contents plus the cursor. -/

/-- Model of the shared-memory backing file: byte contents and the
current write cursor. -/
structure ShmFile where
  data : List Nat
  cursor : Nat
deriving DecidableEq, Repr

/-- Fresh backing file of `n` zero bytes with the cursor at the start,
as produced by `tempfile()` followed by `set_len(n)`. -/
def ShmFile.ofLen (n : Nat) : ShmFile :=
  { data := List.replicate n 0, cursor := 0 }

/-- Semantics of `File::write(&data)`: the bytes land at the current
cursor (overwriting, extending the file if needed) and the cursor
advances by `data.len()`. -/
def fileWrite (f : ShmFile) (d : List Nat) : ShmFile :=
  { data := f.data.take f.cursor ++ d ++ f.data.drop (f.cursor + d.length)
    cursor := f.cursor + d.length }

/-- Semantics of `File::flush()`: no observable effect on contents. -/
def fileFlush (f : ShmFile) : ShmFile := f

/-- Translation of `Buffer::write` (lines 22-27): a `write` on the
backing file followed by a `flush`. -/
def bufferWrite (f : ShmFile) (d : List Nat) : ShmFile :=
  fileFlush (fileWrite f d)

/-! ## Drawable (`drawable.rs`)

`DrawableState` holds the optional cairo image surface, the geometry,
the `refreshed` flag and the optional shared-memory buffer.  The two
heap objects are abstracted by the `Size` they were allocated for. -/

/-- Translation of `DrawableState` (`drawable.rs` lines 19-26), with the
`ImageSurface` and `Buffer` handles abstracted by their allocation
size. -/
structure DrawableState where
  surface : Option Size
  geo : Area
  refreshed : Bool
  buffer : Option Size
deriving DecidableEq, Repr

/-- Translation of `Drawable::set_geometry` (`drawable.rs` lines
79-107).  The flag `size_changed` is assigned the comparison
`drawable.geo != geometry` of the *whole* `Area`; when it holds the old
surface is dropped, `refreshed` is cleared, and — when both dimensions
are positive — a new image surface and a new shm buffer are allocated.
The returned boolean reports whether that allocation branch ran. -/
def setGeometry (d : DrawableState) (geometry : Area) : DrawableState × Bool :=
  let sizeChanged : Bool := d.geo ≠ geometry
  let d1 := { d with geo := geometry }
  let d2 :=
    if sizeChanged then { d1 with surface := none, refreshed := false }
    else d1
  if sizeChanged ∧ 0 < geometry.size.width ∧ 0 < geometry.size.height then
    ({ d2 with
        surface := some geometry.size
        buffer := some geometry.size }, true)
  else (d2, false)

/-- Observable effects of `Drawable::refresh` and the `refresh_pixmap`
calls it triggers on the drawin's layer surface. -/
inductive RefreshEffect where
  /-- Copy of the rendered pixels into the shm buffer (`buffer.write`). -/
  | write (size : Size)
  /-- Call of `LayerSurface::set_size`. -/
  | setSizeCall (size : Size)
  /-- Call of `LayerSurface::set_buffer` with the attach origin. -/
  | setBufferCall (origin : Origin)
  /-- Call of `LayerSurface::commit`. -/
  | commitCall
deriving DecidableEq, Repr

/-- Test for a buffer write effect. -/
def RefreshEffect.isWrite : RefreshEffect → Bool
  | .write _ => true
  | _ => false

/-- Test for a `set_buffer` call effect. -/
def RefreshEffect.isSetBufferCall : RefreshEffect → Bool
  | .setBufferCall _ => true
  | _ => false

/-- Translation of `Drawable::refresh` (`drawable.rs` lines 110-135)
composed with `Drawin::refresh_pixmap` (`drawin.rs` lines 111-124).
When `refreshed` is already set the call returns immediately with no
effect.  Otherwise the surface data — when a surface exists — is written
into the buffer (panicking when no buffer is available), `refreshed` is
set, and `refresh_pixmap` performs `set_size`, `set_buffer`, `commit`;
its `buffer.as_ref().unwrap()` panics when the buffer is absent. -/
def refresh (d : DrawableState) : Option (DrawableState × List RefreshEffect) :=
  if d.refreshed then some (d, [])
  else do
    let writes : List RefreshEffect ←
      match d.surface with
      | some s =>
          match d.buffer with
          | none => none
          | some _ => some [RefreshEffect.write s]
      | none => some []
    let d1 := { d with refreshed := true }
    let _ ← d1.buffer
    some (d1, writes ++
      [RefreshEffect.setSizeCall d1.geo.size,
       RefreshEffect.setBufferCall d1.geo.origin,
       RefreshEffect.commitCall])

/-! ## Drawin geometry update (`drawin.rs` lines 36-83) -/

/-- Translation of `DrawinState` (`drawin.rs` lines 23-34), with the
layer-surface handle abstracted away. -/
structure DrawinState where
  visible : Bool
  geometry : Area
  geometryDirty : Bool
deriving DecidableEq, Repr

/-- Translation of `DrawinState::update_geometry` (lines 36-83): width
and height are applied only when positive and different, origin
components whenever different; one signal is pushed per applied field,
in source order, and `property::geometry` is appended — with
`geometry_dirty` set — exactly when any signal was pushed. -/
def updateGeometry (st : DrawinState) (a : Area) : DrawinState × List String :=
  let g := st.geometry
  let wChanged := 0 < a.size.width ∧ a.size.width ≠ g.size.width
  let hChanged := 0 < a.size.height ∧ a.size.height ≠ g.size.height
  let xChanged := a.origin.x ≠ g.origin.x
  let yChanged := a.origin.y ≠ g.origin.y
  let width := if wChanged then a.size.width else g.size.width
  let height := if hChanged then a.size.height else g.size.height
  let x := if xChanged then a.origin.x else g.origin.x
  let y := if yChanged then a.origin.y else g.origin.y
  let sigs :=
    (if wChanged then ["property::width"] else []) ++
    (if hChanged then ["property::height"] else []) ++
    (if xChanged then ["property::x"] else []) ++
    (if yChanged then ["property::y"] else [])
  let st1 := { st with geometry := ⟨⟨x, y⟩, ⟨width, height⟩⟩ }
  if 0 < sigs.length then
    ({ st1 with geometryDirty := true }, sigs ++ ["property::geometry"])
  else (st1, sigs)

/-! ## Theorems -/

/-- C9: for every layer-surface state and every public operation or
configure event, the step function succeeds — the panic branch of
`attach_buffer` ("no buffer available") is unreachable, because both of
its call sites guard on (or have just established) a present pending
buffer. -/
theorem attach_buffer_error_branch_unreachable
    (st : LayerSurfaceState) (e : LSEvent) : (lsStep st e).isSome = true := by
  cases e with
  | setBuffer b o =>
      simp only [lsStep, setBuffer]
      split
      · simp [attachBuffer]
      · simp
  | setSize w h => rfl
  | commit => rfl
  | configure s w h =>
      simp only [lsStep, configureEv]
      split
      · rename_i hbuf
        cases hb : st.buffer with
        | none => simp [hb] at hbuf
        | some p => simp [attachBuffer, hb]
      · simp

/-- C2 counterexample: binding a second layer-shell global when one is
already stored does yield the protocol-violation outcome, but
`Option::replace` has already overwritten the manager's stored handle
with the second instance — it no longer refers to the first. -/
theorem singleton_second_bind_replaces_handle_cex :
    (layerShellNewGlobal (some 1) 2).2 = BindOutcome.protocolViolation ∧
    (layerShellNewGlobal (some 1) 2).1 = some 2 ∧
    (layerShellNewGlobal (some 1) 2).1 ≠ some 1 := by decide

/-- C2 amended: for each singleton interface manager (layer-shell,
shared-memory, compositor), binding with a handle already stored yields
a protocol violation, with the stored handle replaced by the second
instance before the violation fires; binding with no handle stored
succeeds and stores the new handle. -/
theorem singleton_second_bind_behavior (first next : Nat) :
    layerShellNewGlobal (some first) next =
      (some next, BindOutcome.protocolViolation) ∧
    wlShmNewGlobal (some first) next =
      (some next, BindOutcome.protocolViolation) ∧
    wlCompositorNewGlobal (some first) next =
      (some next, BindOutcome.protocolViolation) ∧
    layerShellNewGlobal none next = (some next, BindOutcome.bound next) ∧
    wlShmNewGlobal none next = (some next, BindOutcome.bound next) ∧
    wlCompositorNewGlobal none next = (some next, BindOutcome.bound next) :=
  ⟨rfl, rfl, rfl, rfl, rfl, rfl⟩

/-- C3 counterexample: at width = height = 40000 the backing-file length
(`u64` arithmetic) is 6400000000 bytes while the pool length (`i32`
arithmetic, wrapping) is 2105032704 — the two disagree, refuting the
no-overflow-discrepancy part of the claim for arbitrary positive
sizes. -/
theorem create_buffer_pool_length_overflow_cex :
    (createBuffer 40000 40000).fileLen = 6400000000 ∧
    (createBuffer 40000 40000).poolLen = 2105032704 ∧
    (createBuffer 40000 40000).poolLen ≠
      ((createBuffer 40000 40000).fileLen : Int) := by decide

/-- C3 amended: whenever `width * height * 4` fits in an `i32`
(< 2^31), `create_buffer` computes file length, pool length, offset,
dimensions, stride and format exactly as the claim states, and
stride · height equals the file length. -/
theorem create_buffer_exact_small (width height : Nat)
    (hw : 0 < width) (hh : 0 < height)
    (hfit : width * height * 4 < 2147483648) :
    createBuffer width height =
      { fileLen := width * height * 4
        poolLen := ((width * height * 4 : Nat) : Int)
        offset := 0
        bufWidth := (width : Int)
        bufHeight := (height : Int)
        stride := ((width * 4 : Nat) : Int)
        argb8888 := true } ∧
    width * 4 * height = width * height * 4 := by
  have hwh : width * height < 2147483648 := by
    calc width * height ≤ width * height * 4 :=
          Nat.le_mul_of_pos_right _ (by norm_num)
    _ < 2147483648 := hfit
  have hwlt : width < 2147483648 :=
    lt_of_le_of_lt (Nat.le_mul_of_pos_right _ hh) hwh
  have hhlt : height < 2147483648 :=
    lt_of_le_of_lt (Nat.le_mul_of_pos_left _ hw) hwh
  have hw4 : width * 4 < 2147483648 := by
    calc width * 4 ≤ width * height * 4 :=
      Nat.mul_le_mul_right _ (Nat.le_mul_of_pos_right _ hh)
    _ < 2147483648 := hfit
  have e1 : width % 4294967296 = width := Nat.mod_eq_of_lt (by omega)
  have e2 : height % 4294967296 = height := Nat.mod_eq_of_lt (by omega)
  have e3 : width * height % 4294967296 = width * height :=
    Nat.mod_eq_of_lt (by omega)
  have e4 : width * height * 4 % 4294967296 = width * height * 4 :=
    Nat.mod_eq_of_lt (by omega)
  have e5 : width * height % 18446744073709551616 = width * height :=
    Nat.mod_eq_of_lt (by omega)
  have e6 : width * height * 4 % 18446744073709551616 = width * height * 4 :=
    Nat.mod_eq_of_lt (by omega)
  have e7 : width * 4 % 4294967296 = width * 4 := Nat.mod_eq_of_lt (by omega)
  constructor
  · simp only [createBuffer, wrap64, wrap32, i32ofBits, e1, e2, e3, e4, e5,
      e6, e7]
    rw [if_pos hfit, if_pos hwlt, if_pos hhlt, if_pos hw4]
  · ring

/-- C3 witness: the amended theorem applied at the concrete size
800 × 600, whose pixel byte count 1920000 fits in an `i32`. -/
theorem create_buffer_exact_small_witness :
    (0 < 800 ∧ 0 < 600 ∧ 800 * 600 * 4 < 2147483648) ∧
    (createBuffer 800 600 =
      { fileLen := 800 * 600 * 4
        poolLen := ((800 * 600 * 4 : Nat) : Int)
        offset := 0
        bufWidth := (800 : Int)
        bufHeight := (600 : Int)
        stride := ((800 * 4 : Nat) : Int)
        argb8888 := true } ∧
      800 * 4 * 600 = 800 * 600 * 4) :=
  ⟨⟨by decide, by decide, by decide⟩,
   create_buffer_exact_small 800 600 (by decide) (by decide) (by decide)⟩

/-- C4 counterexample: two successive writes do not both land at offset
0 — on a fresh 4-byte store, writing `[1, 1]` and then `[2, 2]` leaves
contents `[1, 1, 2, 2]`: the second write landed at offset 2, not 0. -/
theorem buffer_write_second_not_offset_zero_cex :
    (bufferWrite (bufferWrite (ShmFile.ofLen 4) [1, 1]) [2, 2]).data =
      [1, 1, 2, 2] ∧
    (bufferWrite (bufferWrite (ShmFile.ofLen 4) [1, 1]) [2, 2]).data.take 2 ≠
      [2, 2] := by decide

/-- C4 amended: `write` copies the data at the file's current cursor and
advances it: on a fresh buffer the first write lands at offset 0, and a
second write lands at the offset equal to the first write's length. -/
theorem buffer_write_cursor_semantics (n : Nat) (d1 d2 : List Nat) :
    (bufferWrite (ShmFile.ofLen n) d1).cursor = d1.length ∧
    (bufferWrite (ShmFile.ofLen n) d1).data.take d1.length = d1 ∧
    (bufferWrite (bufferWrite (ShmFile.ofLen n) d1) d2).cursor =
      d1.length + d2.length ∧
    ((bufferWrite (bufferWrite (ShmFile.ofLen n) d1) d2).data.drop
        d1.length).take d2.length = d2 := by
  refine ⟨by simp [bufferWrite, fileWrite, fileFlush, ShmFile.ofLen], ?_, ?_, ?_⟩
  · simp only [bufferWrite, fileFlush, fileWrite, ShmFile.ofLen,
      List.take_zero, List.nil_append]
    exact List.take_left d1 _
  · simp [bufferWrite, fileWrite, fileFlush, ShmFile.ofLen]
  · simp only [bufferWrite, fileFlush, fileWrite, ShmFile.ofLen,
      List.take_zero, List.nil_append, Nat.zero_add]
    rw [List.take_left, List.append_assoc, List.drop_left, List.take_left]

/-- C5: evaluation of `set_geometry` at an origin-only change.  With the
current geometry 800 × 600 at (0, 0) and a request for the same size at
(10, 20), the code's `size_changed` flag — computed from the whole
`Area` — is true, so a fresh image surface and shm buffer are allocated
(second component `true`) and `refreshed` is cleared, although the size
component did not change. -/
theorem set_geometry_origin_only_reallocates :
    setGeometry
      { surface := some ⟨800, 600⟩
        geo := ⟨⟨0, 0⟩, ⟨800, 600⟩⟩
        refreshed := true
        buffer := some ⟨800, 600⟩ }
      ⟨⟨10, 20⟩, ⟨800, 600⟩⟩ =
    ({ surface := some ⟨800, 600⟩
       geo := ⟨⟨10, 20⟩, ⟨800, 600⟩⟩
       refreshed := false
       buffer := some ⟨800, 600⟩ }, true) := by decide

/-- C7 counterexample: after two output advertisements both instances
are accepted (no cap of one, nothing ignored), and a second seat
advertisement panics — modelled as a protocol violation — after
replacing the stored seat handle, rather than being logged and
ignored. -/
theorem output_not_capped_seat_rejected_cex :
    (wlOutputNewGlobal (wlOutputNewGlobal [] 1) 2).length = 2 ∧
    (wlOutputNewGlobal (wlOutputNewGlobal [] 1) 2).length ≠ 1 ∧
    (wlSeatNewGlobal (some 1) 2).2 = BindOutcome.protocolViolation ∧
    (wlSeatNewGlobal (some 1) 2).1 ≠ some 1 := by decide

/-- C7 amended: every advertised output instance is accepted and
appended with a fresh default state (earlier instances' states
untouched); the first seat is accepted, and a second seat advertisement
is a fatal protocol violation that replaces the stored handle — not a
logged-and-ignored event. -/
theorem output_seat_new_global_behavior
    (accepted : List (Nat × OutputState)) (o first next : Nat) :
    wlOutputNewGlobal accepted o = accepted ++ [(o, OutputState.initial)] ∧
    (wlOutputNewGlobal accepted o).length = accepted.length + 1 ∧
    wlSeatNewGlobal none next = (some next, BindOutcome.bound next) ∧
    wlSeatNewGlobal (some first) next =
      (some next, BindOutcome.protocolViolation) :=
  ⟨rfl, by simp [wlOutputNewGlobal], rfl, rfl⟩

/-- C8 counterexample: a mode event whose flags do not mark the mode
current (flag word 0) still overwrites the stored resolution: from
(800, 600) to (1024, 768). -/
theorem mode_ignores_current_flag_cex :
    modeFlagsCurrent 0 = false ∧
    (outputModeEv { name := "", resolution := (800, 600) }
      0 1024 768 60).resolution = (1024, 768) ∧
    (outputModeEv { name := "", resolution := (800, 600) }
      0 1024 768 60).resolution ≠ (800, 600) := by
  refine ⟨rfl, ?_, ?_⟩ <;> decide

/-- C8 amended: every mode event unconditionally updates the stored
resolution to `(width as u32, height as u32)`, regardless of its flags,
and leaves the name untouched. -/
theorem mode_event_always_updates_resolution
    (st : OutputState) (flags : Nat) (w h r : Int) :
    (outputModeEv st flags w h r).resolution = (u32ofI32 w, u32ofI32 h) ∧
    (outputModeEv st flags w h r).name = st.name :=
  ⟨rfl, rfl⟩

/-- C6: `refresh` is idempotent — whenever a `refresh` call succeeds
with result state `d'` and effect trace `tr`, an immediately following
`refresh` on `d'` is a no-op producing no effects, and the combined
trace carries at most one buffer write and at most one `set_buffer`
call. -/
theorem refresh_idempotent (d d' : DrawableState) (tr : List RefreshEffect)
    (h : refresh d = some (d', tr)) :
    refresh d' = some (d', []) ∧
    tr.countP (fun e => e.isWrite) ≤ 1 ∧
    tr.countP (fun e => e.isSetBufferCall) ≤ 1 := by
  by_cases hr : d.refreshed
  · rw [refresh, if_pos hr, Option.some.injEq, Prod.mk.injEq] at h
    obtain ⟨h1, h2⟩ := h
    subst h1; subst h2
    exact ⟨by rw [refresh, if_pos hr], by simp, by simp⟩
  · rw [refresh, if_neg hr] at h
    cases hs : d.surface with
    | some s =>
        cases hb : d.buffer with
        | none => rw [hs] at h; simp [hb] at h
        | some sb =>
            rw [hs] at h
            simp only [Option.bind_eq_bind, hb, Option.some_bind,
              Option.some.injEq, Prod.mk.injEq] at h
            obtain ⟨h1, h2⟩ := h
            subst h1; subst h2
            refine ⟨by rw [refresh]; rfl, ?_, ?_⟩ <;>
              simp [List.countP_cons, RefreshEffect.isWrite,
                RefreshEffect.isSetBufferCall]
    | none =>
        cases hb : d.buffer with
        | none => rw [hs] at h; simp [hb] at h
        | some sb =>
            rw [hs] at h
            simp only [Option.bind_eq_bind, hb, Option.some_bind,
              Option.some.injEq, Prod.mk.injEq] at h
            obtain ⟨h1, h2⟩ := h
            subst h1; subst h2
            refine ⟨by rw [refresh]; rfl, ?_, ?_⟩ <;>
              simp [List.countP_cons, RefreshEffect.isWrite,
                RefreshEffect.isSetBufferCall]

/-- C6 witness: the idempotence theorem at a concrete 800 × 600 drawable
that has not yet been refreshed. -/
theorem refresh_idempotent_witness :
    refresh
      { surface := some ⟨800, 600⟩
        geo := ⟨⟨0, 0⟩, ⟨800, 600⟩⟩
        refreshed := false
        buffer := some ⟨800, 600⟩ } =
      some ({ surface := some ⟨800, 600⟩
              geo := ⟨⟨0, 0⟩, ⟨800, 600⟩⟩
              refreshed := true
              buffer := some ⟨800, 600⟩ },
            [RefreshEffect.write ⟨800, 600⟩,
             RefreshEffect.setSizeCall ⟨800, 600⟩,
             RefreshEffect.setBufferCall ⟨0, 0⟩,
             RefreshEffect.commitCall]) ∧
    (refresh
      { surface := some ⟨800, 600⟩
        geo := ⟨⟨0, 0⟩, ⟨800, 600⟩⟩
        refreshed := true
        buffer := some ⟨800, 600⟩ } =
      some ({ surface := some ⟨800, 600⟩
              geo := ⟨⟨0, 0⟩, ⟨800, 600⟩⟩
              refreshed := true
              buffer := some ⟨800, 600⟩ }, []) ∧
    ([RefreshEffect.write ⟨800, 600⟩,
      RefreshEffect.setSizeCall ⟨800, 600⟩,
      RefreshEffect.setBufferCall ⟨0, 0⟩,
      RefreshEffect.commitCall].countP (fun e => e.isWrite) ≤ 1 ∧
     [RefreshEffect.write ⟨800, 600⟩,
      RefreshEffect.setSizeCall ⟨800, 600⟩,
      RefreshEffect.setBufferCall ⟨0, 0⟩,
      RefreshEffect.commitCall].countP (fun e => e.isSetBufferCall) ≤ 1)) :=
  ⟨by decide,
   refresh_idempotent
     { surface := some ⟨800, 600⟩
       geo := ⟨⟨0, 0⟩, ⟨800, 600⟩⟩
       refreshed := false
       buffer := some ⟨800, 600⟩ }
     { surface := some ⟨800, 600⟩
       geo := ⟨⟨0, 0⟩, ⟨800, 600⟩⟩
       refreshed := true
       buffer := some ⟨800, 600⟩ }
     [RefreshEffect.write ⟨800, 600⟩,
      RefreshEffect.setSizeCall ⟨800, 600⟩,
      RefreshEffect.setBufferCall ⟨0, 0⟩,
      RefreshEffect.commitCall]
     (by decide)⟩

set_option maxHeartbeats 1600000

/-- C10: `update_geometry` applies each component independently — the
origin always takes the requested value, width and height only when the
request is positive; each per-property signal is emitted exactly when
that field's value changed, `property::geometry` exactly when any field
changed, and an update identical to the current geometry changes
nothing and emits nothing. -/
theorem update_geometry_signals_spec (st : DrawinState) (a : Area) :
    (updateGeometry st a).1.geometry =
      ⟨⟨a.origin.x, a.origin.y⟩,
       ⟨if 0 < a.size.width then a.size.width else st.geometry.size.width,
        if 0 < a.size.height then a.size.height else st.geometry.size.height⟩⟩ ∧
    ("property::width" ∈ (updateGeometry st a).2 ↔
      (updateGeometry st a).1.geometry.size.width ≠ st.geometry.size.width) ∧
    ("property::height" ∈ (updateGeometry st a).2 ↔
      (updateGeometry st a).1.geometry.size.height ≠ st.geometry.size.height) ∧
    ("property::x" ∈ (updateGeometry st a).2 ↔
      (updateGeometry st a).1.geometry.origin.x ≠ st.geometry.origin.x) ∧
    ("property::y" ∈ (updateGeometry st a).2 ↔
      (updateGeometry st a).1.geometry.origin.y ≠ st.geometry.origin.y) ∧
    ("property::geometry" ∈ (updateGeometry st a).2 ↔
      (updateGeometry st a).1.geometry ≠ st.geometry) ∧
    updateGeometry st st.geometry = (st, []) := by
  obtain ⟨v, ⟨⟨gx, gy⟩, ⟨gw, gh⟩⟩, gd⟩ := st
  obtain ⟨⟨ax, ay⟩, ⟨aw, ah⟩⟩ := a
  have hid : updateGeometry ⟨v, ⟨⟨gx, gy⟩, ⟨gw, gh⟩⟩, gd⟩
      ⟨⟨gx, gy⟩, ⟨gw, gh⟩⟩ = (⟨v, ⟨⟨gx, gy⟩, ⟨gw, gh⟩⟩, gd⟩, []) := by
    simp [updateGeometry]
  refine ⟨?_, ?_, ?_, ?_, ?_, ?_, hid⟩ <;>
    simp only [updateGeometry] <;>
    split_ifs <;>
    simp_all [Area.mk.injEq, Size.mk.injEq, Origin.mk.injEq]

/-- Helper for C1: running any configure-free event sequence from an
unconfigured state succeeds, never places an attach request on the wire,
stays unconfigured, and leaves as pending buffer the payload of the last
`setBuffer` event (or the prior pending buffer when there was none). -/
theorem lsRun_unconfigured (es : List LSEvent) :
    ∀ st : LayerSurfaceState, st.configurationSerial = none →
      noConfigure es = true →
      ∃ st' reqs, lsRun st es = some (st', reqs) ∧
        (∀ r ∈ reqs, r.isAttach = false) ∧
        st'.configurationSerial = none ∧
        st'.buffer = (match lastSetBuffer es with
          | some p => some p
          | none => st.buffer) := by
  induction es with
  | nil =>
      intro st h1 _
      exact ⟨st, [], rfl, by simp, h1, by simp [lastSetBuffer]⟩
  | cons e es ih =>
      intro st h1 h2
      have h2' : noConfigure es = true := by
        simp only [noConfigure, List.all_cons, Bool.and_eq_true] at h2
        exact h2.2
      have hecfg : e.isConfigure = false := by
        simp only [noConfigure, List.all_cons, Bool.and_eq_true] at h2
        simpa using h2.1
      cases e with
      | configure s w hgt => simp [LSEvent.isConfigure] at hecfg
      | setBuffer b o =>
          have hstep : lsStep st (LSEvent.setBuffer b o) =
              some ({ st with buffer := some (b, o) }, []) := by
            simp [lsStep, setBuffer, h1]
          obtain ⟨st', reqs, hrun, hat, hser, hbuf⟩ :=
            ih { st with buffer := some (b, o) } h1 h2'
          refine ⟨st', reqs, ?_, hat, hser, ?_⟩
          · simp [lsRun, hstep, hrun]
          · simp only [lastSetBuffer]
            cases hl : lastSetBuffer es <;> simp [hl] at hbuf ⊢ <;>
              exact hbuf
      | setSize w hgt =>
          obtain ⟨st', reqs, hrun, hat, hser, hbuf⟩ := ih st h1 h2'
          refine ⟨st', WireReq.setSize w hgt :: reqs, ?_, ?_, hser, ?_⟩
          · simp [lsRun, lsStep, setSizeReq, hrun]
          · intro r hr
            rcases List.mem_cons.mp hr with hr | hr
            · subst hr; rfl
            · exact hat r hr
          · simp only [lastSetBuffer]
            cases hl : lastSetBuffer es <;> simp [hl] at hbuf ⊢ <;>
              exact hbuf
      | commit =>
          obtain ⟨st', reqs, hrun, hat, hser, hbuf⟩ := ih st h1 h2'
          refine ⟨st', WireReq.commit :: reqs, ?_, ?_, hser, ?_⟩
          · simp [lsRun, lsStep, commitReq, hrun]
          · intro r hr
            rcases List.mem_cons.mp hr with hr | hr
            · subst hr; rfl
            · exact hat r hr
          · simp only [lastSetBuffer]
            cases hl : lastSetBuffer es <;> simp [hl] at hbuf ⊢ <;>
              exact hbuf

/-- C1: starting from a fresh (unconfigured) layer surface, any sequence
of public operations containing no configure event produces no attach
request on the wire, and leaves pending exactly the most recently set
buffer; when a configure event then arrives, the handler acknowledges
exactly the serial it carried and — when a pending buffer exists —
attaches exactly that buffer at its origin and commits. -/
theorem set_buffer_deferred_until_configure (es : List LSEvent)
    (serial width height : Nat) (hnc : noConfigure es = true) :
    ∃ st' reqs, lsRun LayerSurfaceState.initial es = some (st', reqs) ∧
      (∀ r ∈ reqs, r.isAttach = false) ∧
      st'.buffer = lastSetBuffer es ∧
      st'.configurationSerial = none ∧
      lsStep st' (LSEvent.configure serial width height) =
        some ({ buffer := none, configurationSerial := some serial },
          match lastSetBuffer es with
          | some p => [WireReq.ackConfigure serial,
                       WireReq.attach p.1 p.2.x p.2.y, WireReq.commit]
          | none => [WireReq.ackConfigure serial]) := by
  obtain ⟨st', reqs, hrun, hat, hser, hbuf⟩ :=
    lsRun_unconfigured es LayerSurfaceState.initial rfl hnc
  have hbuf' : st'.buffer = lastSetBuffer es := by
    cases hl : lastSetBuffer es <;> simp [hl] at hbuf <;>
      simp [hbuf, LayerSurfaceState.initial]
  refine ⟨st', reqs, hrun, hat, hbuf', hser, ?_⟩
  cases hl : lastSetBuffer es with
  | none =>
      have hb : st'.buffer = none := by rw [hbuf', hl]
      obtain ⟨b', s'⟩ := st'
      simp only at hb hser
      subst hb; subst hser
      simp [lsStep, configureEv]
  | some p =>
      have hb : st'.buffer = some p := by rw [hbuf', hl]
      obtain ⟨b', s'⟩ := st'
      simp only at hb hser
      subst hb; subst hser
      simp [lsStep, configureEv, attachBuffer]

/-- C1 witness: the deferral theorem at a concrete run — two buffers are
set and a commit issued while unconfigured; no attach is on the wire,
the second buffer is the pending one, and configure with serial 7
acknowledges 7 then attaches buffer 2 at (5, 6) and commits. -/
theorem set_buffer_deferred_witness :
    noConfigure [LSEvent.setBuffer 1 ⟨0, 0⟩, LSEvent.commit,
      LSEvent.setBuffer 2 ⟨5, 6⟩] = true ∧
    (∃ st' reqs,
      lsRun LayerSurfaceState.initial [LSEvent.setBuffer 1 ⟨0, 0⟩,
        LSEvent.commit, LSEvent.setBuffer 2 ⟨5, 6⟩] = some (st', reqs) ∧
      (∀ r ∈ reqs, r.isAttach = false) ∧
      st'.buffer = lastSetBuffer [LSEvent.setBuffer 1 ⟨0, 0⟩,
        LSEvent.commit, LSEvent.setBuffer 2 ⟨5, 6⟩] ∧
      st'.configurationSerial = none ∧
      lsStep st' (LSEvent.configure 7 100 50) =
        some ({ buffer := none, configurationSerial := some 7 },
          match lastSetBuffer [LSEvent.setBuffer 1 ⟨0, 0⟩, LSEvent.commit,
            LSEvent.setBuffer 2 ⟨5, 6⟩] with
          | some p => [WireReq.ackConfigure 7,
                       WireReq.attach p.1 p.2.x p.2.y, WireReq.commit]
          | none => [WireReq.ackConfigure 7])) :=
  ⟨by decide,
   set_buffer_deferred_until_configure
     [LSEvent.setBuffer 1 ⟨0, 0⟩, LSEvent.commit, LSEvent.setBuffer 2 ⟨5, 6⟩]
     7 100 50 (by decide)⟩

end WayCooler
